import Mathlib

/-!
Shallow embedding of the easy-pulse-feedback survey application
(src/pages/TakeSurvey.tsx, src/pages/SurveyResults.tsx,
src/pages/CreateSurvey.tsx), with theorems checking the natural-language
specification against it.

Modelling conventions:
* JavaScript records (`Record<string, T>`) are modelled as insertion-ordered
  association lists with unique keys.  Property assignment overwrites in
  place when the key exists and appends otherwise, exactly as a JS object
  behaves for string keys.
* Property enumeration (`Object.keys` / `Object.entries`) follows ECMA-262
  OrdinaryOwnPropertyKeys: keys that are canonical array indices come first
  in ascending numeric order, the remaining string keys in insertion order.
* JavaScript numbers are modelled as exact rationals; a division whose
  result is not a finite number (NaN or Infinity, which arises exactly when
  the divisor is 0 here) is modelled as `none`.
* Fallible store queries are modelled with `Except`; `.single()` on a
  filtered select errors when the row set is empty or has more than one row.
-/

namespace SurveyApp

/-- Property assignment `m[k] = v` on a JS object: overwrite the existing
entry in place when the key is present, append otherwise. -/
def recordSet : List (String × α) → String → α → List (String × α)
  | [], k, v => [(k, v)]
  | p :: rest, k, v => if p.1 = k then (k, v) :: rest else p :: recordSet rest k v

/-- Property lookup `m[k]` on a JS object, `none` for `undefined`. -/
def recordGet? : List (String × α) → String → Option α
  | [], _ => none
  | p :: rest, k => if p.1 = k then some p.2 else recordGet? rest k

/-- Insertion-order key list of a JS object. -/
def recordKeys (m : List (String × α)) : List String := m.map Prod.fst

/-- Value of a decimal digit list, most significant first. -/
def digitsToNat (l : List Char) : Nat :=
  l.foldl (fun n c => 10 * n + (c.toNat - 48)) 0

/-- Canonical array-index property key per ECMA-262: the decimal numeral of
an integer n with 0 <= n < 2^32 - 1, without leading zeros (checked by the
numeral round trip). -/
def isArrayIndexKey (s : String) : Bool :=
  (!s.data.isEmpty) && s.data.all Char.isDigit &&
    (Nat.repr (digitsToNat s.data) == s) && decide (digitsToNat s.data < 4294967295)

/-- Numeric value used to order array-index keys (meaningful on digit
strings, which are the only keys that reach the comparison). -/
def keyNum (s : String) : Nat := digitsToNat s.data

/-- Insertion step of the stable insertion sort used to model the ascending
enumeration of array-index keys. -/
def insertByNum (key : α → Nat) (p : α) : List α → List α
  | [] => [p]
  | q :: rest =>
    if key p ≤ key q then p :: q :: rest else q :: insertByNum key p rest

/-- Stable sort by a numeric key, ascending. -/
def sortByNum (key : α → Nat) : List α → List α
  | [] => []
  | p :: rest => insertByNum key p (sortByNum key rest)

/-- Enumeration order of `Object.entries` per ECMA-262: canonical
array-index keys first in ascending numeric order, then the remaining
string keys in insertion order. -/
def jsEntries (m : List (String × α)) : List (String × α) :=
  sortByNum (fun p => keyNum p.1) (m.filter (fun p => isArrayIndexKey p.1)) ++
    m.filter (fun p => !isArrayIndexKey p.1)

/-- Truthiness of `answers[q.id]` in JS: `undefined` and the empty string
are falsy, every non-empty string is truthy. -/
def truthyStr : Option String → Bool
  | none => false
  | some s => !s.data.isEmpty

/-- Model of `String.prototype.trim()`: strip leading and trailing
whitespace. -/
def jsTrim (s : String) : String :=
  String.mk
    (((s.data.dropWhile Char.isWhitespace).reverse.dropWhile Char.isWhitespace).reverse)

/-- Question row as selected by the client (interface Question in
TakeSurvey.tsx / SurveyResults.tsx, plus the survey_id column used by the
store-level filters). -/
structure Question where
  id : String
  survey_id : String
  type : String
  text : String
  options : Option (List String)
  required : Bool
  order_index : Nat
deriving DecidableEq

/-- Survey row (interface Survey, plus the status column). -/
structure Survey where
  id : String
  title : String
  description : Option String
  status : String
deriving DecidableEq

/-- Row inserted into the responses table by handleSubmit. -/
structure ResponseRow where
  id : String
  survey_id : String
deriving DecidableEq

/-- Row inserted into the answers table by handleSubmit. -/
structure AnswerRow where
  response_id : String
  question_id : String
  answer_value : String
deriving DecidableEq

/-- Outcome of TakeSurvey.handleSubmit: either the early validation return
(toast "Please answer all required questions", nothing persisted) or the
successful path carrying the one Response row and the Answer rows inserted. -/
inductive SubmitOutcome where
  | validationError
  | submitted (resp : ResponseRow) (answerRows : List AnswerRow)
deriving DecidableEq

/-- TakeSurvey.handleSubmit (lines 67-104): filters the required questions,
treats a falsy accumulator entry (absent key or empty string) as missing,
aborts before any insert when one is missing; otherwise inserts one Response
row for the survey and one Answer row per `Object.entries(answers)` entry.
`responseId` stands for the id the store mints for the inserted Response. -/
def handleSubmit (questions : List Question) (answers : List (String × String))
    (surveyId responseId : String) : SubmitOutcome :=
  let requiredQuestions := questions.filter (fun q => q.required)
  let missingAnswers :=
    requiredQuestions.filter (fun q => !truthyStr (recordGet? answers q.id))
  if missingAnswers.length > 0 then
    .validationError
  else
    .submitted ⟨responseId, surveyId⟩
      ((jsEntries answers).map (fun kv => ⟨responseId, kv.1, kv.2⟩))

/-- Division of JS numbers: `none` models the non-finite results (0/0 is
NaN, x/0 is an infinity); every other quotient is exact. -/
def jsDiv (a b : ℚ) : Option ℚ := if b = 0 then none else some (a / b)

/-- TakeSurvey line 220:
`(Object.keys(answers).length / questions.length) * 100`. -/
def progress (answers : List (String × String)) (questions : List Question) :
    Option ℚ :=
  (jsDiv ((recordKeys answers).length : ℚ) ((questions.length : ℚ))).map
    (fun x => x * 100)

/-- Answer row as selected by the results view (interface Answer in
SurveyResults.tsx: question_id, answer_value). -/
structure Answer where
  question_id : String
  answer_value : String
deriving DecidableEq

/-- Per-question analytics shape returned by getQuestionAnalytics: choice
tallies, a rating average/total pair, or the raw text answers. -/
inductive Analytics where
  | choice (entries : List (String × Nat))
  | rating (average : String) (total : Nat)
  | text (values : List String)
deriving DecidableEq

/-- JavaScript `parseInt` restricted to the shapes this code feeds it
(non-negative decimal numerals; rating values are "1".."5"): the value of
the longest leading digit run, `none` modelling NaN when there is none. -/
def jsParseInt (s : String) : Option Nat :=
  let digits := s.data.takeWhile Char.isDigit
  if digits.isEmpty then none else some (digitsToNat digits)

/-- Sum of JS numbers where `none` models NaN: NaN propagates. -/
def optSum : List (Option Nat) → Option Nat
  | [] => some 0
  | o :: rest => o.bind (fun a => (optSum rest).map (fun b => a + b))

/-- Number.prototype.toFixed(1) on a non-negative rational: the nearest
tenth (ties away from zero), rendered with exactly one digit after the
point.  The model computes on exact rationals. -/
def toFixed1 (x : ℚ) : String :=
  let n := (⌊x * 10 + 1 / 2⌋).toNat
  Nat.repr (n / 10) ++ "." ++ Nat.repr (n % 10)

/-- SurveyResults.getQuestionAnalytics (lines 81-100): filters the answers
of the question, then dispatches on the question type.  Choice types fold
the values into a counts record and return `Object.entries` of it; rating
maps the values through parseInt, averages with `.toFixed(1)` when any
ratings exist and uses the literal "0" otherwise; every other type returns
the raw value list. -/
def getQuestionAnalytics (question : Question) (answers : List Answer) :
    Analytics :=
  let questionAnswers := answers.filter (fun a => a.question_id = question.id)
  if question.type = "multiple_choice" ∨ question.type = "dropdown" then
    let counts := questionAnswers.foldl
      (fun acc a =>
        recordSet acc a.answer_value ((recordGet? acc a.answer_value).getD 0 + 1))
      []
    .choice (jsEntries counts)
  else if question.type = "rating" then
    let ratings := questionAnswers.map (fun a => jsParseInt a.answer_value)
    let average :=
      if ratings.length > 0 then
        match optSum ratings with
        | some s => toFixed1 ((s : ℚ) / (ratings.length : ℚ))
        | none => "NaN"
      else "0"
    .rating average ratings.length
  else
    .text (questionAnswers.map (fun a => a.answer_value))

/-- Replacement performed by exportData on free-text answers: each quote
character becomes two quote characters. -/
def escapeQuotes (l : List Char) : List Char :=
  l.flatMap (fun c => if c = '"' then ['"', '"'] else [c])

/-- Free-text CSV cell of exportData line 127: wrap in quotes, double the
internal quote characters. -/
def quoteCsv (s : String) : String :=
  "\"" ++ String.mk (escapeQuotes s.data) ++ "\""

/-- Rows a question's analytics contribute to the CSV (exportData lines
119-129). -/
def analyticsRows : Analytics → List String
  | .choice entries => entries.map (fun item => item.1 ++ "," ++ Nat.repr item.2)
  | .rating average _ => ["Average Rating," ++ average]
  | .text values => values.map quoteCsv

/-- Line list of the exported CSV (exportData lines 110-131): the two
summary rows, one empty row, then for each question its text row, its
analytics rows and a trailing empty row.  A pushed array is rendered by the
final `csvRows.join("\n")` as its comma-join, so `[]` becomes the empty
line and `[text]` becomes the text itself. -/
def exportRows (survey : Survey) (questions : List Question)
    (answers : List Answer) (responseCount : Nat) : List String :=
  ["Survey," ++ survey.title, "Total Responses," ++ Nat.repr responseCount, ""] ++
    questions.flatMap (fun q =>
      [q.text] ++ analyticsRows (getQuestionAnalytics q answers) ++ [""])

/-- SurveyResults.exportData (lines 108-145): the CSV text, obtained by
joining the rows with newlines. -/
def exportData (survey : Survey) (questions : List Question)
    (answers : List Answer) (responseCount : Nat) : String :=
  String.intercalate "\n" (exportRows survey questions answers responseCount)

/-- Download attribute of exportData line 138. -/
def exportFilename (surveyId : String) : String :=
  "survey-results-" ++ surveyId ++ ".csv"

/-- Builder-side question state (interface Question in CreateSurvey.tsx). -/
structure DraftQuestion where
  type : String
  text : String
  options : Option (List String)
  required : Bool
  order_index : Nat
deriving DecidableEq

/-- Row inserted into the surveys table by saveSurvey. -/
structure SurveyInsert where
  title : String
  description : String
  status : String
deriving DecidableEq

/-- Row inserted into the questions table by saveSurvey. -/
structure QuestionInsert where
  survey_id : String
  type : String
  text : String
  options : Option (List String)
  required : Bool
  order_index : Nat
deriving DecidableEq

/-- One store round trip issued by saveSurvey. -/
inductive StoreCall where
  | insertSurvey (row : SurveyInsert)
  | insertQuestions (rows : List QuestionInsert)
deriving DecidableEq

/-- Outcome of CreateSurvey.saveSurvey. -/
inductive SaveOutcome where
  | validationError (message : String)
  | saved (survey : SurveyInsert) (questionRows : List QuestionInsert)
deriving DecidableEq

/-- CreateSurvey.saveSurvey (lines 102-146): the store calls issued and the
outcome.  Validation (falsy trimmed title, then any falsy trimmed question
text) returns before any store call.  Otherwise one surveys insert and one
questions insert are issued; the mapping of line 127 coerces an absent or
empty options list to null.  `surveyId` stands for the id the store mints
for the inserted Survey. -/
def saveSurvey (title description : String) (questions : List DraftQuestion)
    (status : String) (surveyId : String) : List StoreCall × SaveOutcome :=
  if (jsTrim title).data.isEmpty then
    ([], .validationError "Please enter a survey title")
  else if questions.any (fun q => (jsTrim q.text).data.isEmpty) then
    ([], .validationError "All questions must have text")
  else
    let surveyRow : SurveyInsert := ⟨title, description, status⟩
    let questionsToInsert := questions.map (fun q =>
      ({ survey_id := surveyId, type := q.type, text := q.text,
         options := match q.options with
           | some opts => if opts.length > 0 then some opts else none
           | none => none,
         required := q.required, order_index := q.order_index } : QuestionInsert))
    ([.insertSurvey surveyRow, .insertQuestions questionsToInsert],
      .saved surveyRow questionsToInsert)

/-- Error of a `.single()` postgrest call: no row matched, or more than
one did. -/
inductive SingleErr where
  | noRows
  | multipleRows
deriving DecidableEq

/-- Result of `.single()` on a filtered select. -/
def singleRow : List α → Except SingleErr α
  | [] => .error .noRows
  | [a] => .ok a
  | _ :: _ :: _ => .error .multipleRows

/-- Store contents visible to the respondent-side load. -/
structure Store where
  surveys : List Survey
  questions : List Question
deriving DecidableEq

/-- Caller-visible outcome of TakeSurvey.fetchSurvey: the catch branch
(toast "Survey not found or unavailable", survey stays null) or the loaded
survey plus its ordered questions. -/
inductive LoadResult where
  | failure
  | loaded (survey : Survey) (questions : List Question)
deriving DecidableEq

/-- Stable ascending sort on order_index, modelling `.order("order_index")`. -/
def orderByIndex (qs : List Question) : List Question :=
  sortByNum (fun q => q.order_index) qs

/-- TakeSurvey.fetchSurvey (lines 46-65): selects the survey filtered on the
id and on status = "published" with `.single()`, and the survey's questions
ordered by order_index.  A `.single()` error throws into the catch branch
before any state is set.  Transport-level failures of the questions select
are outside this model. -/
def fetchSurvey (store : Store) (id : String) : LoadResult :=
  match singleRow (store.surveys.filter
      (fun s => s.id = id ∧ s.status = "published")) with
  | .error _ => .failure
  | .ok surveyData =>
    .loaded surveyData (orderByIndex (store.questions.filter (fun q => q.survey_id = id)))

/-- Response-id row fetched by the results view. -/
structure RespRow where
  id : String
deriving DecidableEq

/-- Caller-visible outcome of SurveyResults.fetchData: `failure` is the
catch branch (single "Failed to load survey results" toast), `loaded`
carries the rendered data. -/
inductive ResultsView where
  | failure
  | loaded (survey : Survey) (questions : List Question) (responseCount : Nat)
      (answers : List Answer)
deriving DecidableEq

/-- SurveyResults.fetchData (lines 48-79) as a function of the results of
its four store calls (the three parallel fetches and the dependent answers
fetch).  Only the survey and questions errors are checked and thrown; a
responses error is not: `responsesRes.data?.length || 0` turns it into a
response count of 0 and the `responsesRes.data && responsesRes.data.length > 0`
guard then skips the answers fetch, so the view still loads.  The answers
fetch runs only when at least one response row came back, and its error is
thrown. -/
def fetchData (surveyRes : Except String Survey)
    (questionsRes : Except String (List Question))
    (responsesRes : Except String (List RespRow))
    (answersRes : Except String (List Answer)) : ResultsView :=
  match surveyRes with
  | .error _ => .failure
  | .ok surveyData =>
    match questionsRes with
    | .error _ => .failure
    | .ok questionsData =>
      match responsesRes with
      | .error _ => .loaded surveyData questionsData 0 []
      | .ok rows =>
        if rows.length > 0 then
          match answersRes with
          | .error _ => .failure
          | .ok answersData =>
            .loaded surveyData questionsData rows.length answersData
        else
          .loaded surveyData questionsData rows.length []

/-- Counts record built by the choice branch of getQuestionAnalytics, as a
function of the answer values. -/
def countsOf (vals : List String) : List (String × Nat) :=
  vals.foldl
    (fun acc v => recordSet acc v ((recordGet? acc v).getD 0 + 1)) []

/-- Distinct values in order of first occurrence. -/
def firstOccur (vals : List String) : List String :=
  vals.foldl (fun ks v => if v ∈ ks then ks else ks ++ [v]) []

/-- Joins row blocks with a single blank row strictly between consecutive
blocks. -/
def joinBlocksBlank : List (List String) → List String
  | [] => []
  | [b] => b
  | b :: rest => b ++ "" :: joinBlocksBlank rest

/-- Modelled from the claim's words, for comparison with exportData: the
survey-title summary line and the total-response-count summary line, then
for each question its text row and its analytics rows, with a blank
separator row only between questions. -/
def exportCsvClaimedSpec (survey : Survey) (questions : List Question)
    (answers : List Answer) (responseCount : Nat) : String :=
  String.intercalate "\n"
    (["Survey," ++ survey.title, "Total Responses," ++ Nat.repr responseCount] ++
      joinBlocksBlank (questions.map (fun q =>
        q.text :: analyticsRows (getQuestionAnalytics q answers))))

theorem recordGet?_recordSet (m : List (String × α)) (k k' : String) (v : α) :
    recordGet? (recordSet m k v) k' = if k' = k then some v else recordGet? m k' := by
  induction m with
  | nil =>
    simp only [recordSet, recordGet?]
    by_cases h : k = k'
    · simp [h]
    · simp [h, Ne.symm h]
  | cons p rest ih =>
    by_cases hp : p.1 = k
    · simp only [recordSet, if_pos hp, recordGet?]
      by_cases h : k = k'
      · simp [h]
      · simp [h, Ne.symm h, hp]
    · simp only [recordSet, if_neg hp, recordGet?]
      by_cases hpk : p.1 = k'
      · simp [hpk, show ¬(k' = k) from fun hh => hp (hpk.trans hh)]
      · simp [hpk, ih]

theorem recordKeys_recordSet (m : List (String × α)) (k : String) (v : α) :
    recordKeys (recordSet m k v) =
      if k ∈ recordKeys m then recordKeys m else recordKeys m ++ [k] := by
  induction m with
  | nil => simp [recordSet, recordKeys]
  | cons p rest ih =>
    by_cases hp : p.1 = k
    · simp [recordSet, hp, recordKeys]
    · simp only [recordSet, if_neg hp, recordKeys, List.map_cons] at ih ⊢
      rw [ih]
      by_cases hk : k ∈ rest.map Prod.fst
      · simp [hk, Ne.symm hp]
      · simp [hk, Ne.symm hp]

theorem length_recordSet_of_not_mem (m : List (String × α)) (k : String) (v : α)
    (h : k ∉ recordKeys m) : (recordSet m k v).length = m.length + 1 := by
  have h1 := recordKeys_recordSet m k v
  rw [if_neg h] at h1
  have h2 : (recordKeys (recordSet m k v)).length = (recordKeys m ++ [k]).length := by
    rw [h1]
  simpa [recordKeys] using h2

theorem recordGet?_eq_some_of_mem (m : List (String × α)) (k : String) (v : α)
    (hnd : (recordKeys m).Nodup) (h : (k, v) ∈ m) : recordGet? m k = some v := by
  induction m with
  | nil => cases h
  | cons p rest ih =>
    simp only [recordKeys, List.map_cons, List.nodup_cons] at hnd
    rcases List.mem_cons.mp h with h1 | h1
    · rw [← h1]
      simp [recordGet?]
    · have hp : ¬(p.1 = k) := by
        intro hh
        exact hnd.1 (hh ▸ List.mem_map_of_mem Prod.fst h1)
      simp only [recordGet?, if_neg hp]
      exact ih hnd.2 h1

theorem mem_foldl_firstOccur (vals : List String) (acc : List String) (k : String) :
    k ∈ vals.foldl (fun ks v => if v ∈ ks then ks else ks ++ [v]) acc ↔
      k ∈ acc ∨ k ∈ vals := by
  induction vals generalizing acc with
  | nil => simp
  | cons v vs ih =>
    simp only [List.foldl_cons, ih]
    by_cases hv : v ∈ acc
    · rw [if_pos hv]
      simp only [List.mem_cons]
      constructor
      · rintro (h | h)
        · exact Or.inl h
        · exact Or.inr (Or.inr h)
      · rintro (h | rfl | h)
        · exact Or.inl h
        · exact Or.inl hv
        · exact Or.inr h
    · rw [if_neg hv]
      simp only [List.mem_append, List.mem_cons, List.not_mem_nil, or_false]
      constructor
      · rintro ((h | h) | h)
        · exact Or.inl h
        · exact Or.inr (Or.inl h)
        · exact Or.inr (Or.inr h)
      · rintro (h | h | h)
        · exact Or.inl (Or.inl h)
        · exact Or.inl (Or.inr h)
        · exact Or.inr h

theorem nodup_foldl_firstOccur (vals : List String) (acc : List String)
    (h : acc.Nodup) :
    (vals.foldl (fun ks v => if v ∈ ks then ks else ks ++ [v]) acc).Nodup := by
  induction vals generalizing acc with
  | nil => exact h
  | cons v vs ih =>
    simp only [List.foldl_cons]
    apply ih
    by_cases hv : v ∈ acc
    · simpa [hv]
    · simp [hv, List.nodup_append, h, List.disjoint_singleton]

theorem recordKeys_countsFold (vals : List String) (acc : List (String × Nat)) :
    recordKeys (vals.foldl
        (fun a v => recordSet a v ((recordGet? a v).getD 0 + 1)) acc) =
      vals.foldl (fun ks v => if v ∈ ks then ks else ks ++ [v]) (recordKeys acc) := by
  induction vals generalizing acc with
  | nil => rfl
  | cons v vs ih =>
    rw [List.foldl_cons, ih, recordKeys_recordSet, List.foldl_cons]

theorem recordKeys_countsOf (vals : List String) :
    recordKeys (countsOf vals) = firstOccur vals :=
  recordKeys_countsFold vals []

theorem recordGet?_countsFold (vals : List String) (acc : List (String × Nat))
    (k : String) :
    (recordGet? (vals.foldl
        (fun a v => recordSet a v ((recordGet? a v).getD 0 + 1)) acc) k).getD 0 =
      (recordGet? acc k).getD 0 + vals.count k := by
  induction vals generalizing acc with
  | nil => simp
  | cons v vs ih =>
    rw [List.foldl_cons, ih, recordGet?_recordSet]
    by_cases h : k = v
    · subst h
      simp [List.count_cons]
      omega
    · simp [h, List.count_cons, Ne.symm h]

theorem recordGet?_countsOf (vals : List String) (k : String) :
    (recordGet? (countsOf vals) k).getD 0 = vals.count k := by
  have := recordGet?_countsFold vals [] k
  simpa [recordGet?] using this

theorem optSum_map_some (l : List Nat) : optSum (l.map some) = some l.sum := by
  induction l with
  | nil => rfl
  | cons a l ih => simp [optSum, ih, List.sum_cons]

theorem insertByNum_perm (key : α → Nat) (p : α) (l : List α) :
    (insertByNum key p l).Perm (p :: l) := by
  induction l with
  | nil => exact List.Perm.refl _
  | cons q rest ih =>
    simp only [insertByNum]
    split
    · exact List.Perm.refl _
    · exact (ih.cons q).trans (List.Perm.swap p q rest)

theorem sortByNum_perm (key : α → Nat) (l : List α) :
    (sortByNum key l).Perm l := by
  induction l with
  | nil => exact List.Perm.refl _
  | cons p rest ih => exact (insertByNum_perm key p _).trans (ih.cons p)

theorem insertByNum_pairwise (key : α → Nat) (p : α) (l : List α)
    (h : l.Pairwise (fun a b => key a ≤ key b)) :
    (insertByNum key p l).Pairwise (fun a b => key a ≤ key b) := by
  induction l with
  | nil => simp [insertByNum]
  | cons q rest ih =>
    rcases List.pairwise_cons.mp h with ⟨hq, hrest⟩
    simp only [insertByNum]
    split
    · next hle =>
      refine List.pairwise_cons.mpr ⟨?_, h⟩
      intro b hb
      rcases List.mem_cons.mp hb with rfl | hb2
      · exact hle
      · exact hle.trans (hq b hb2)
    · next hle =>
      have hqp : key q ≤ key p := le_of_not_le hle
      refine List.pairwise_cons.mpr ⟨?_, ih hrest⟩
      intro b hb
      rcases List.mem_cons.mp ((insertByNum_perm key p rest).mem_iff.mp hb) with rfl | hb2
      · exact hqp
      · exact hq b hb2

theorem sortByNum_pairwise (key : α → Nat) (l : List α) :
    (sortByNum key l).Pairwise (fun a b => key a ≤ key b) := by
  induction l with
  | nil => simp [sortByNum]
  | cons p rest ih => exact insertByNum_pairwise key p _ ih

theorem map_insertByNum (f : α → β) (key : β → Nat) (p : α) (l : List α) :
    (insertByNum (fun x => key (f x)) p l).map f = insertByNum key (f p) (l.map f) := by
  induction l with
  | nil => rfl
  | cons q rest ih =>
    simp only [insertByNum, List.map_cons]
    by_cases h : key (f p) ≤ key (f q)
    · simp [h]
    · simp [h, ih]

theorem map_sortByNum (f : α → β) (key : β → Nat) (l : List α) :
    (sortByNum (fun x => key (f x)) l).map f = sortByNum key (l.map f) := by
  induction l with
  | nil => rfl
  | cons p rest ih => simp only [sortByNum, List.map_cons, map_insertByNum, ih]

theorem jsEntries_perm (m : List (String × α)) : (jsEntries m).Perm m := by
  unfold jsEntries
  exact ((sortByNum_perm _ _).append (List.Perm.refl _)).trans
    (List.filter_append_perm _ m)

theorem map_fst_filter_fst (m : List (String × α)) (p : String → Bool) :
    (m.filter (fun q => p q.1)).map Prod.fst = (m.map Prod.fst).filter p := by
  induction m with
  | nil => rfl
  | cons q rest ih => by_cases h : p q.1 <;> simp [h, ih]

theorem map_fst_jsEntries (m : List (String × α)) :
    (jsEntries m).map Prod.fst =
      sortByNum keyNum ((m.map Prod.fst).filter isArrayIndexKey) ++
        (m.map Prod.fst).filter (fun s => !isArrayIndexKey s) := by
  unfold jsEntries
  rw [List.map_append, map_sortByNum Prod.fst keyNum,
    map_fst_filter_fst m isArrayIndexKey,
    map_fst_filter_fst m (fun s => !isArrayIndexKey s)]

theorem toFixed1_spec (x : ℚ) (hx : 0 ≤ x) :
    ∃ n : ℕ, toFixed1 x = Nat.repr (n / 10) ++ "." ++ Nat.repr (n % 10) ∧
      |((n : ℚ) / 10) - x| ≤ 1 / 20 := by
  refine ⟨(⌊x * 10 + 1 / 2⌋).toNat, rfl, ?_⟩
  have h0 : (0 : ℚ) ≤ x * 10 + 1 / 2 := by positivity
  have hfl0 : 0 ≤ ⌊x * 10 + 1 / 2⌋ := Int.floor_nonneg.mpr h0
  have hcast : (((⌊x * 10 + 1 / 2⌋).toNat : ℕ) : ℚ) = ((⌊x * 10 + 1 / 2⌋ : ℤ) : ℚ) := by
    exact_mod_cast congrArg (fun z : ℤ => (z : ℚ)) (Int.toNat_of_nonneg hfl0)
  rw [hcast]
  have h1 : ((⌊x * 10 + 1 / 2⌋ : ℤ) : ℚ) ≤ x * 10 + 1 / 2 := Int.floor_le _
  have h2 : x * 10 + 1 / 2 < ((⌊x * 10 + 1 / 2⌋ : ℤ) : ℚ) + 1 := Int.lt_floor_add_one _
  rw [abs_le]
  constructor <;> linarith

/-- C6: for every builder state, save(status) with an empty or
whitespace-only title, or with any question whose text is empty, fails
validation and performs zero store calls: no Survey or Question insert is
attempted. -/
theorem c6_save_validates_before_store (title description : String)
    (questions : List DraftQuestion) (status surveyId : String)
    (h : jsTrim title = "" ∨ ∃ q ∈ questions, q.text = "") :
    (saveSurvey title description questions status surveyId).1 = [] ∧
      ∃ msg, (saveSurvey title description questions status surveyId).2 =
        SaveOutcome.validationError msg := by
  unfold saveSurvey
  rcases h with h | ⟨q, hq, hqt⟩
  · have ht : (jsTrim title).data.isEmpty = true := by rw [h]; rfl
    rw [if_pos ht]
    exact ⟨rfl, "Please enter a survey title", rfl⟩
  · by_cases ht : (jsTrim title).data.isEmpty
    · rw [if_pos ht]
      exact ⟨rfl, "Please enter a survey title", rfl⟩
    · rw [if_neg ht]
      have ha : questions.any (fun q => (jsTrim q.text).data.isEmpty) = true := by
        refine List.any_eq_true.mpr ⟨q, hq, ?_⟩
        rw [hqt]
        rfl
      rw [if_pos ha]
      exact ⟨rfl, "All questions must have text", rfl⟩

/-- Witness for C6 at a concrete builder state with a whitespace-only
title. -/
theorem c6_save_validates_before_store_witness :
    (saveSurvey " " "desc" [⟨"multiple_choice", "Q", some ["A"], true, 0⟩]
        "draft" "s1").1 = [] ∧
      ∃ msg, (saveSurvey " " "desc" [⟨"multiple_choice", "Q", some ["A"], true, 0⟩]
        "draft" "s1").2 = SaveOutcome.validationError msg :=
  c6_save_validates_before_store " " "desc"
    [⟨"multiple_choice", "Q", some ["A"], true, 0⟩] "draft" "s1"
    (Or.inl (by decide))

/-- C8: loading a survey through the respondent path when every survey
with that id in the store is a draft gives the same caller-visible failure
as loading from a store that has no survey with that id at all. -/
theorem c8_draft_indistinguishable (s1 s2 : Store) (id : String)
    (h0 : ∃ s ∈ s1.surveys, s.id = id ∧ s.status = "draft")
    (h1 : ∀ s ∈ s1.surveys, s.id = id → s.status = "draft")
    (h2 : ∀ s ∈ s2.surveys, s.id ≠ id) :
    fetchSurvey s1 id = .failure ∧ fetchSurvey s2 id = .failure ∧
      fetchSurvey s1 id = fetchSurvey s2 id := by
  have e1 : s1.surveys.filter (fun s => s.id = id ∧ s.status = "published") = [] := by
    rw [List.filter_eq_nil_iff]
    intro s hs
    simp only [decide_eq_true_eq]
    rintro ⟨hid, hstat⟩
    exact absurd ((h1 s hs hid).symm.trans hstat) (by decide)
  have e2 : s2.surveys.filter (fun s => s.id = id ∧ s.status = "published") = [] := by
    rw [List.filter_eq_nil_iff]
    intro s hs
    simp only [decide_eq_true_eq]
    rintro ⟨hid, _⟩
    exact h2 s hs hid
  have f1 : fetchSurvey s1 id = .failure := by
    unfold fetchSurvey
    rw [e1]
    rfl
  have f2 : fetchSurvey s2 id = .failure := by
    unfold fetchSurvey
    rw [e2]
    rfl
  exact ⟨f1, f2, f1.trans f2.symm⟩

/-- Witness for C8: a store holding one draft survey versus the empty
store. -/
theorem c8_draft_indistinguishable_witness :
    fetchSurvey ⟨[⟨"s1", "T", none, "draft"⟩], []⟩ "s1" = .failure ∧
      fetchSurvey ⟨[], []⟩ "s1" = .failure ∧
      fetchSurvey ⟨[⟨"s1", "T", none, "draft"⟩], []⟩ "s1" =
        fetchSurvey ⟨[], []⟩ "s1" :=
  c8_draft_indistinguishable ⟨[⟨"s1", "T", none, "draft"⟩], []⟩ ⟨[], []⟩ "s1"
    ⟨⟨"s1", "T", none, "draft"⟩, by simp, rfl, rfl⟩
    (by intro s hs hid; simp at hs; rw [hs]) (by intro s hs; simp at hs)

/-- C9 counterexample: when the response-count fetch of the results view
fails while the survey and question fetches succeed, the load does not
abort: the view loads with response count 0 instead of reaching the error
handler. -/
theorem c9_counterexample :
    fetchData (.ok ⟨"s1", "T", none, "published"⟩) (.ok []) (.error "boom")
        (.ok []) = .loaded ⟨"s1", "T", none, "published"⟩ [] 0 [] ∧
      fetchData (.ok ⟨"s1", "T", none, "published"⟩) (.ok []) (.error "boom")
        (.ok []) ≠ .failure :=
  ⟨rfl, by decide⟩

/-- C9 (amended): the survey and questions fetches must both succeed -
failure of either aborts the results load with the single error handler;
a failure of the response-count fetch is not checked: the view loads with
response count 0 and no answers.  The dependent answers fetch, issued only
when response rows exist, does abort on failure. -/
theorem c9_fetchData_amended :
    (∀ (e : String) questionsRes responsesRes answersRes,
        fetchData (.error e) questionsRes responsesRes answersRes = .failure) ∧
    (∀ s (e : String) responsesRes answersRes,
        fetchData (.ok s) (.error e) responsesRes answersRes = .failure) ∧
    (∀ s qs (e : String) answersRes,
        fetchData (.ok s) (.ok qs) (.error e) answersRes = .loaded s qs 0 []) ∧
    (∀ s qs rows (e : String), rows ≠ [] →
        fetchData (.ok s) (.ok qs) (.ok rows) (.error e) = .failure) ∧
    (∀ s qs rows ans,
        fetchData (.ok s) (.ok qs) (.ok rows) (.ok ans) =
          if rows.length > 0 then .loaded s qs rows.length ans
          else .loaded s qs 0 []) := by
  refine ⟨fun _ _ _ _ => rfl, fun _ _ _ _ => rfl, fun _ _ _ _ => rfl, ?_, ?_⟩
  · intro s qs rows e hne
    simp [fetchData, List.length_pos.mpr hne]
  · intro s qs rows ans
    by_cases h : rows.length > 0
    · simp [fetchData, h]
    · have h0 : rows.length = 0 := by omega
      simp [fetchData, h, h0]

/-- Witness for C9 at concrete fetch results: a failed response-count
fetch loads anyway, a failed answers fetch aborts. -/
theorem c9_fetchData_amended_witness :
    fetchData (.ok ⟨"s1", "T", none, "published"⟩) (.ok []) (.error "boom")
        (.ok []) = .loaded ⟨"s1", "T", none, "published"⟩ [] 0 [] ∧
      fetchData (.ok ⟨"s1", "T", none, "published"⟩) (.ok [])
        (.ok [⟨"r1"⟩]) (.error "boom") = .failure :=
  ⟨c9_fetchData_amended.2.2.1 ⟨"s1", "T", none, "published"⟩ [] "boom" (.ok []),
   c9_fetchData_amended.2.2.2.1 ⟨"s1", "T", none, "published"⟩ [] [⟨"r1"⟩] "boom"
     (by decide)⟩

/-- C10: an empty-string accumulator entry (typed then cleared) counts
toward the progress numerator; on a successful submit it yields an Answer
row whose value is the empty string; yet for a required question an
empty-string entry is treated as missing and blocks submission with the
validation error. -/
theorem c10_empty_string_entry :
    (∀ (m : List (String × String)) (questions : List Question) (qid : String),
        qid ∉ recordKeys m → questions ≠ [] →
        progress (recordSet m qid "") questions =
          some (((m.length + 1 : ℕ) : ℚ) / (questions.length : ℚ) * 100)) ∧
    (∀ (questions : List Question) (m : List (String × String))
        (surveyId responseId : String) (resp : ResponseRow)
        (rows : List AnswerRow) (qid : String),
        handleSubmit questions m surveyId responseId = .submitted resp rows →
        (qid, "") ∈ m →
        (⟨responseId, qid, ""⟩ : AnswerRow) ∈ rows) ∧
    (∀ (questions : List Question) (m : List (String × String))
        (surveyId responseId : String) (q : Question),
        q ∈ questions → q.required = true → recordGet? m q.id = some "" →
        handleSubmit questions m surveyId responseId = .validationError) := by
  refine ⟨?_, ?_, ?_⟩
  · intro m questions qid hnot hne
    have hkeys : (recordKeys (recordSet m qid "")).length = m.length + 1 := by
      simpa [recordKeys] using length_recordSet_of_not_mem m qid "" hnot
    have hq0 : ¬((questions.length : ℚ) = 0) := by
      rw [Nat.cast_eq_zero, List.length_eq_zero]
      exact hne
    unfold progress jsDiv
    rw [hkeys, if_neg hq0]
    rfl
  · intro questions m surveyId responseId resp rows qid hsub hmem
    simp only [handleSubmit] at hsub
    by_cases hmiss : ((questions.filter (fun q => q.required)).filter
        (fun q => !truthyStr (recordGet? m q.id))).length > 0
    · rw [if_pos hmiss] at hsub
      cases hsub
    · rw [if_neg hmiss] at hsub
      injection hsub with _ hrows
      rw [← hrows]
      exact List.mem_map_of_mem _ ((jsEntries_perm m).mem_iff.mpr hmem)
  · intro questions m surveyId responseId q hq hreq hget
    have hqm : q ∈ (questions.filter (fun q => q.required)).filter
        (fun q => !truthyStr (recordGet? m q.id)) := by
      refine List.mem_filter.mpr ⟨List.mem_filter.mpr ⟨hq, hreq⟩, ?_⟩
      rw [hget]
      rfl
    simp only [handleSubmit]
    rw [if_pos (List.length_pos.mpr (List.ne_nil_of_mem hqm))]

/-- Witness for C10 at concrete states: one-question surveys with the
accumulator holding the empty string. -/
theorem c10_empty_string_entry_witness :
    progress (recordSet [] "q1" "")
        [⟨"q1", "s1", "short_text", "Q", none, false, 0⟩] = some 100 ∧
      (⟨"r1", "q1", ""⟩ : AnswerRow) ∈ [(⟨"r1", "q1", ""⟩ : AnswerRow)] ∧
      handleSubmit [⟨"q1", "s1", "short_text", "Q", none, true, 0⟩]
        [("q1", "")] "s1" "r1" = .validationError := by
  refine ⟨?_, ?_, ?_⟩
  · have h := c10_empty_string_entry.1 []
      [⟨"q1", "s1", "short_text", "Q", none, false, 0⟩] "q1"
      (by simp [recordKeys]) (by decide)
    rw [h]
    norm_num
  · have h : handleSubmit [⟨"q1", "s1", "short_text", "Q", none, false, 0⟩]
        [("q1", "")] "s1" "r1" =
          .submitted ⟨"r1", "s1"⟩ [⟨"r1", "q1", ""⟩] := by decide
    exact c10_empty_string_entry.2.1
      [⟨"q1", "s1", "short_text", "Q", none, false, 0⟩] [("q1", "")]
      "s1" "r1" ⟨"r1", "s1"⟩ [⟨"r1", "q1", ""⟩] "q1" h (by decide)
  · exact c10_empty_string_entry.2.2
      [⟨"q1", "s1", "short_text", "Q", none, true, 0⟩] [("q1", "")] "s1" "r1"
      ⟨"q1", "s1", "short_text", "Q", none, true, 0⟩
      (by decide) (by decide) (by decide)

/-- C1 counterexample: one required question whose accumulated answer is
the empty string.  No required question lacks an accumulated answer, yet
submit fails with the validation error instead of inserting. -/
theorem c1_counterexample :
    (∀ q ∈ [(⟨"q1", "s1", "short_text", "Q", none, true, 0⟩ : Question)],
        q.required = true → q.id ∈ recordKeys [("q1", "")]) ∧
      handleSubmit [⟨"q1", "s1", "short_text", "Q", none, true, 0⟩]
        [("q1", "")] "s1" "r1" = .validationError :=
  ⟨by decide, by decide⟩

/-- C1 (amended): submit fails with the validation error (persisting
nothing) when some required question lacks a truthy accumulated answer,
absent or empty-string entries both counting as missing; otherwise it
inserts exactly one Response row for the survey and exactly one Answer row
per accumulated entry, each referencing that Response and its question,
and questions without an accumulated entry get no Answer row. -/
theorem c1_submit_amended (questions : List Question)
    (m : List (String × String)) (surveyId responseId : String)
    (hnd : (recordKeys m).Nodup) :
    ((∃ q ∈ questions, q.required = true ∧ truthyStr (recordGet? m q.id) = false) →
        handleSubmit questions m surveyId responseId = .validationError) ∧
    ((∀ q ∈ questions, q.required = true → truthyStr (recordGet? m q.id) = true) →
      ∃ rows : List AnswerRow,
        handleSubmit questions m surveyId responseId =
          .submitted ⟨responseId, surveyId⟩ rows ∧
        rows.length = m.length ∧
        (∀ kv ∈ m, rows.count ⟨responseId, kv.1, kv.2⟩ = 1) ∧
        (∀ row ∈ rows, ∃ kv ∈ m, row = ⟨responseId, kv.1, kv.2⟩) ∧
        (∀ k, k ∉ recordKeys m → ∀ row ∈ rows, row.question_id ≠ k)) := by
  constructor
  · rintro ⟨q, hq, hreq, hfalse⟩
    have hqm : q ∈ (questions.filter (fun q => q.required)).filter
        (fun q => !truthyStr (recordGet? m q.id)) := by
      refine List.mem_filter.mpr ⟨List.mem_filter.mpr ⟨hq, hreq⟩, ?_⟩
      rw [hfalse]
      rfl
    simp only [handleSubmit]
    rw [if_pos (List.length_pos.mpr (List.ne_nil_of_mem hqm))]
  · intro hall
    have hmiss : (questions.filter (fun q => q.required)).filter
        (fun q => !truthyStr (recordGet? m q.id)) = [] := by
      rw [List.filter_eq_nil_iff]
      intro q hq
      have hqq := List.mem_filter.mp hq
      have ht := hall q hqq.1 hqq.2
      simp [ht]
    refine ⟨(jsEntries m).map (fun kv => ⟨responseId, kv.1, kv.2⟩), ?_, ?_, ?_, ?_, ?_⟩
    · simp only [handleSubmit]
      rw [hmiss]
      rfl
    · rw [List.length_map, (jsEntries_perm m).length_eq]
    · intro kv hkv
      have hinj : Function.Injective (fun kv : String × String =>
          (⟨responseId, kv.1, kv.2⟩ : AnswerRow)) := by
        intro a b hab
        simp only [AnswerRow.mk.injEq, true_and] at hab
        exact Prod.ext hab.1 hab.2
      have hmnd : m.Nodup := List.Nodup.of_map Prod.fst hnd
      have hjnd : (jsEntries m).Nodup := ((jsEntries_perm m).nodup_iff).mpr hmnd
      exact List.count_eq_one_of_mem (hjnd.map hinj)
        (List.mem_map_of_mem _ ((jsEntries_perm m).mem_iff.mpr hkv))
    · intro row hrow
      rcases List.mem_map.mp hrow with ⟨kv, hkv, rfl⟩
      exact ⟨kv, (jsEntries_perm m).mem_iff.mp hkv, rfl⟩
    · intro k hk row hrow
      rcases List.mem_map.mp hrow with ⟨kv, hkv, rfl⟩
      intro hcontra
      apply hk
      rw [← hcontra]
      exact List.mem_map_of_mem Prod.fst ((jsEntries_perm m).mem_iff.mp hkv)

/-- Witness for C1 at a concrete survey: a required question answered
"yes", an optional question left unanswered. -/
theorem c1_submit_amended_witness :
    ∃ rows : List AnswerRow,
      handleSubmit
          [⟨"q1", "s1", "short_text", "Q1", none, true, 0⟩,
           ⟨"q2", "s1", "short_text", "Q2", none, false, 1⟩]
          [("q1", "yes")] "s1" "r1" = .submitted ⟨"r1", "s1"⟩ rows := by
  obtain ⟨rows, h1, -⟩ :=
    (c1_submit_amended
      [⟨"q1", "s1", "short_text", "Q1", none, true, 0⟩,
       ⟨"q2", "s1", "short_text", "Q2", none, false, 1⟩]
      [("q1", "yes")] "s1" "r1" (by decide)).2 (by decide)
  exact ⟨rows, h1⟩

/-- C4 counterexample: with zero questions, progress is the non-finite
0/0 (modelled none), not 0; and with one answered question out of one,
progress is 100, not a fraction lying in [0,1]. -/
theorem c4_counterexample :
    progress [] [] = none ∧ progress [] [] ≠ some 0 ∧
      progress [("q1", "x")] [⟨"q1", "s1", "short_text", "Q", none, false, 0⟩] =
        some 100 ∧ ¬((100 : ℚ) ≤ 1) := by
  have h : progress [] [] = none := by simp [progress, jsDiv, recordKeys]
  refine ⟨h, by rw [h]; simp, ?_, by norm_num⟩
  norm_num [progress, jsDiv, recordKeys]

/-- C4 (amended): when the survey has at least one question and the
accumulator keys are distinct ids of its questions, progress is the
percentage (answered / total) * 100 lying in [0, 100]; with zero questions
the division 0/0 yields a non-finite value (NaN), not 0: the code has no
divide-by-zero guard. -/
theorem c4_progress_amended (answers : List (String × String))
    (questions : List Question)
    (hnd : (recordKeys answers).Nodup)
    (hsub : ∀ k ∈ recordKeys answers, k ∈ questions.map (fun q => q.id)) :
    (questions = [] → progress answers questions = none) ∧
    (questions ≠ [] → ∃ r : ℚ,
        progress answers questions = some r ∧
        r = (answers.length : ℚ) / (questions.length : ℚ) * 100 ∧
        0 ≤ r ∧ r ≤ 100) := by
  constructor
  · rintro rfl
    simp [progress, jsDiv]
  · intro hne
    have hlen : answers.length ≤ questions.length := by
      have h1 : (recordKeys answers).length ≤ (questions.map (fun q => q.id)).length :=
        (hnd.subperm hsub).length_le
      simpa [recordKeys] using h1
    have hq0 : (0 : ℚ) < (questions.length : ℚ) := by
      exact_mod_cast List.length_pos.mpr hne
    refine ⟨(answers.length : ℚ) / (questions.length : ℚ) * 100, ?_, rfl, ?_, ?_⟩
    · unfold progress jsDiv
      rw [if_neg (ne_of_gt hq0)]
      simp [recordKeys]
    · positivity
    · have hfrac : (answers.length : ℚ) / (questions.length : ℚ) ≤ 1 := by
        rw [div_le_one hq0]
        exact_mod_cast hlen
      have := mul_le_mul_of_nonneg_right hfrac (by norm_num : (0 : ℚ) ≤ 100)
      simpa using this

/-- Witness for C4 at a one-question survey with one answered entry. -/
theorem c4_progress_amended_witness :
    ∃ r : ℚ,
      progress [("q1", "x")] [⟨"q1", "s1", "short_text", "Q", none, false, 0⟩] =
        some r ∧ 0 ≤ r ∧ r ≤ 100 := by
  obtain ⟨r, h1, -, h3, h4⟩ :=
    (c4_progress_amended [("q1", "x")]
      [⟨"q1", "s1", "short_text", "Q", none, false, 0⟩]
      (by decide) (by decide)).2 (by decide)
  exact ⟨r, h1, h3, h4⟩

/-- C3 counterexample: a rating question with zero answers yields the
average string "0", not the claimed "0.0". -/
theorem c3_counterexample :
    getQuestionAnalytics ⟨"q1", "s1", "rating", "Q", none, false, 0⟩ [] =
        .rating "0" 0 ∧ ("0" : String) ≠ "0.0" :=
  ⟨by decide, by decide⟩

/-- C3 (amended): for a rating question whose answers all parse as
numerals, analytics returns total = the number of the question's answers,
and average = the occurrence-weighted mean rounded to the nearest tenth
rendered with one decimal digit - except with zero answers, where the
average is the plain string "0" (not "0.0") and the total is 0. -/
theorem c3_rating_amended (question : Question) (answers : List Answer)
    (parsed : List ℕ) (htype : question.type = "rating")
    (hp : (answers.filter (fun a => a.question_id = question.id)).map
        (fun a => jsParseInt a.answer_value) = parsed.map some) :
    getQuestionAnalytics question answers =
      .rating
        (if parsed.length = 0 then "0"
         else toFixed1 ((parsed.sum : ℚ) / (parsed.length : ℚ)))
        parsed.length ∧
    (parsed.length ≠ 0 → ∃ n : ℕ,
        toFixed1 ((parsed.sum : ℚ) / (parsed.length : ℚ)) =
          Nat.repr (n / 10) ++ "." ++ Nat.repr (n % 10) ∧
        |((n : ℚ) / 10) - (parsed.sum : ℚ) / (parsed.length : ℚ)| ≤ 1 / 20) := by
  constructor
  · by_cases hlen : parsed.length = 0
    · simp [getQuestionAnalytics, htype, hp, optSum_map_some, hlen]
    · simp [getQuestionAnalytics, htype, hp, optSum_map_some, hlen,
        Nat.pos_of_ne_zero hlen]
  · intro hlen
    apply toFixed1_spec
    positivity

/-- Witness for C3 at the claim's example: rating answers 4, 5, 3 give
average "4.0" and total 3. -/
theorem c3_rating_amended_witness :
    getQuestionAnalytics ⟨"q1", "s1", "rating", "Q", none, false, 0⟩
        [⟨"q1", "4"⟩, ⟨"q1", "5"⟩, ⟨"q1", "3"⟩] = .rating "4.0" 3 := by
  have h := (c3_rating_amended ⟨"q1", "s1", "rating", "Q", none, false, 0⟩
      [⟨"q1", "4"⟩, ⟨"q1", "5"⟩, ⟨"q1", "3"⟩] [4, 5, 3] rfl (by decide)).1
  rw [h]
  have hx : ((([4, 5, 3] : List ℕ).sum : ℚ) / (([4, 5, 3] : List ℕ).length : ℚ)) = 4 := by
    norm_num
  have hfl : ⌊(4 : ℚ) * 10 + 1 / 2⌋ = 40 := by norm_num
  simp only [hx, toFixed1, hfl]
  decide

/-- C7 counterexample: a builder state with a multiple_choice question
whose options list is empty is saved, not rejected: both store inserts are
issued and the question row is stored with options null. -/
theorem c7_counterexample :
    (saveSurvey "T" "" [⟨"multiple_choice", "Q", some [], true, 0⟩]
        "draft" "s1").2 =
        .saved ⟨"T", "", "draft"⟩
          [⟨"s1", "multiple_choice", "Q", none, true, 0⟩] ∧
      (saveSurvey "T" "" [⟨"multiple_choice", "Q", some [], true, 0⟩]
        "draft" "s1").1 ≠ [] :=
  ⟨by decide, by decide⟩

/-- C7 (amended): save performs no empty-options validation: whenever the
title and the question texts pass validation, the survey and question
inserts are issued regardless of empty options on choice/dropdown
questions; the row mapping coerces an absent or empty options list to
null, so no stored Question row carries an empty options list - but the
save is not rejected. -/
theorem c7_save_amended (title description : String)
    (questions : List DraftQuestion) (status surveyId : String)
    (htitle : (jsTrim title).data.isEmpty = false)
    (htext : ∀ q ∈ questions, (jsTrim q.text).data.isEmpty = false) :
    ∃ rows : List QuestionInsert,
      (saveSurvey title description questions status surveyId).1 =
        [.insertSurvey ⟨title, description, status⟩, .insertQuestions rows] ∧
      (saveSurvey title description questions status surveyId).2 =
        .saved ⟨title, description, status⟩ rows ∧
      rows = questions.map (fun q =>
        ({ survey_id := surveyId, type := q.type, text := q.text,
           options := match q.options with
             | some opts => if opts.length > 0 then some opts else none
             | none => none,
           required := q.required, order_index := q.order_index } : QuestionInsert)) ∧
      (∀ row ∈ rows, row.options ≠ some []) := by
  have hany : questions.any (fun q => (jsTrim q.text).data.isEmpty) = false := by
    rw [List.any_eq_false]
    intro q hq
    simp [htext q hq]
  unfold saveSurvey
  rw [if_neg (by simp [htitle]), if_neg (by simp [hany])]
  refine ⟨_, rfl, rfl, rfl, ?_⟩
  intro row hrow
  rcases List.mem_map.mp hrow with ⟨q, hq, rfl⟩
  cases hq2 : q.options with
  | none => simp [hq2]
  | some opts =>
    by_cases hlen : opts.length > 0
    · have hne : opts ≠ [] := by
        intro hh
        rw [hh] at hlen
        exact absurd hlen (by decide)
      simp [hq2, hlen, hne]
    · simp [hq2, hlen]

/-- Witness for C7 at a concrete builder state with an empty options
list. -/
theorem c7_save_amended_witness :
    ∃ rows : List QuestionInsert,
      (saveSurvey "T" "d" [⟨"multiple_choice", "Q", some [], true, 0⟩]
          "draft" "s1").1 =
        [.insertSurvey ⟨"T", "d", "draft"⟩, .insertQuestions rows] ∧
      (saveSurvey "T" "d" [⟨"multiple_choice", "Q", some [], true, 0⟩]
          "draft" "s1").2 = .saved ⟨"T", "d", "draft"⟩ rows := by
  obtain ⟨rows, h1, h2, -⟩ :=
    c7_save_amended "T" "d" [⟨"multiple_choice", "Q", some [], true, 0⟩]
      "draft" "s1" (by decide) (by decide)
  exact ⟨rows, h1, h2⟩

theorem counts_eq_countsOf (qa : List Answer) :
    qa.foldl (fun acc a =>
        recordSet acc a.answer_value ((recordGet? acc a.answer_value).getD 0 + 1))
      [] = countsOf (qa.map (fun a => a.answer_value)) := by
  rw [countsOf, List.foldl_map]

theorem getQuestionAnalytics_choice (question : Question) (answers : List Answer)
    (htype : question.type = "multiple_choice" ∨ question.type = "dropdown") :
    getQuestionAnalytics question answers =
      .choice (jsEntries (countsOf
        ((answers.filter (fun a => a.question_id = question.id)).map
          (fun a => a.answer_value)))) := by
  simp only [getQuestionAnalytics]
  rw [if_pos htype, counts_eq_countsOf]

theorem mem_firstOccur (vals : List String) (k : String) :
    k ∈ firstOccur vals ↔ k ∈ vals := by
  unfold firstOccur
  simpa using mem_foldl_firstOccur vals [] k

theorem nodup_firstOccur (vals : List String) : (firstOccur vals).Nodup := by
  unfold firstOccur
  exact nodup_foldl_firstOccur vals [] List.nodup_nil

theorem nodup_recordKeys_countsOf (vals : List String) :
    (recordKeys (countsOf vals)).Nodup := by
  rw [recordKeys_countsOf]
  exact nodup_firstOccur vals

/-- C2 counterexample: with answers "2" then "1" (values that are
canonical array-index strings) the returned pairs come out in ascending
numeric order, not in the claimed order of first occurrence among the
answers. -/
theorem c2_counterexample :
    getQuestionAnalytics ⟨"q1", "s1", "multiple_choice", "Q", none, false, 0⟩
        [⟨"q1", "2"⟩, ⟨"q1", "1"⟩] = .choice [("1", 1), ("2", 1)] ∧
      firstOccur ["2", "1"] = ["2", "1"] ∧
      ([("1", 1), ("2", 1)] : List (String × Nat)).map Prod.fst ≠ ["2", "1"] :=
  ⟨by decide, by decide, by decide⟩

/-- C2 (amended): for a multiple_choice or dropdown question, analytics
returns (value, count) pairs where each count is the number of occurrences
of that value among the question's answers, the values are exactly the
distinct values occurring among the answers (zero-occurrence options
omitted, no duplicates), and the order is that of JS object key
enumeration: values that are canonical array-index strings first in
ascending numeric order, then the remaining values in order of first
occurrence - not plain first-occurrence order for numeral-shaped values. -/
theorem c2_choice_amended (question : Question) (answers : List Answer)
    (htype : question.type = "multiple_choice" ∨ question.type = "dropdown") :
    ∃ entries : List (String × Nat),
      getQuestionAnalytics question answers = .choice entries ∧
      (∀ p ∈ entries, p.2 =
        ((answers.filter (fun a => a.question_id = question.id)).map
          (fun a => a.answer_value)).count p.1) ∧
      (∀ k, k ∈ entries.map Prod.fst ↔
        k ∈ (answers.filter (fun a => a.question_id = question.id)).map
          (fun a => a.answer_value)) ∧
      (entries.map Prod.fst).Nodup ∧
      entries.map Prod.fst =
        sortByNum keyNum ((firstOccur
            ((answers.filter (fun a => a.question_id = question.id)).map
              (fun a => a.answer_value))).filter isArrayIndexKey) ++
          (firstOccur
            ((answers.filter (fun a => a.question_id = question.id)).map
              (fun a => a.answer_value))).filter (fun s => !isArrayIndexKey s) ∧
      (sortByNum keyNum ((firstOccur
          ((answers.filter (fun a => a.question_id = question.id)).map
            (fun a => a.answer_value))).filter isArrayIndexKey)).Pairwise
        (fun a b => keyNum a ≤ keyNum b) := by
  set vals := (answers.filter (fun a => a.question_id = question.id)).map
      (fun a => a.answer_value) with hv
  have hnd : (recordKeys (countsOf vals)).Nodup := nodup_recordKeys_countsOf vals
  refine ⟨jsEntries (countsOf vals), ?_, ?_, ?_, ?_, ?_, ?_⟩
  · rw [getQuestionAnalytics_choice question answers htype, hv]
  · rintro ⟨k, c⟩ hp
    have hp2 : (k, c) ∈ countsOf vals := (jsEntries_perm _).mem_iff.mp hp
    have hg := recordGet?_eq_some_of_mem (countsOf vals) k c hnd hp2
    have hcount := recordGet?_countsOf vals k
    rw [hg] at hcount
    simpa using hcount
  · intro k
    rw [((jsEntries_perm (countsOf vals)).map Prod.fst).mem_iff]
    rw [show (countsOf vals).map Prod.fst = firstOccur vals from
      recordKeys_countsOf vals]
    exact mem_firstOccur vals k
  · exact (((jsEntries_perm (countsOf vals)).map Prod.fst).nodup_iff).mpr hnd
  · rw [map_fst_jsEntries]
    rw [show (countsOf vals).map Prod.fst = firstOccur vals from
      recordKeys_countsOf vals]
  · exact sortByNum_pairwise keyNum _

/-- Witness for C2 at the claim's example: answers "A","B","A" give the
pairs [("A",2),("B",1)] with correct counts. -/
theorem c2_choice_amended_witness :
    getQuestionAnalytics ⟨"q1", "s1", "multiple_choice", "Q", none, false, 0⟩
        [⟨"q1", "A"⟩, ⟨"q1", "B"⟩, ⟨"q1", "A"⟩] = .choice [("A", 2), ("B", 1)] ∧
    ∃ entries : List (String × Nat),
      getQuestionAnalytics ⟨"q1", "s1", "multiple_choice", "Q", none, false, 0⟩
          [⟨"q1", "A"⟩, ⟨"q1", "B"⟩, ⟨"q1", "A"⟩] = .choice entries ∧
      (∀ p ∈ entries, p.2 = (["A", "B", "A"] : List String).count p.1) := by
  obtain ⟨entries, h1, h2, -⟩ :=
    c2_choice_amended ⟨"q1", "s1", "multiple_choice", "Q", none, false, 0⟩
      [⟨"q1", "A"⟩, ⟨"q1", "B"⟩, ⟨"q1", "A"⟩] (Or.inl rfl)
  exact ⟨by decide, entries, h1, fun p hp => h2 p hp⟩

/-- C5 counterexample: for a one-question survey the claimed line layout,
with blank separators only between questions, differs from the produced
CSV, which also has a blank row after the summary lines and after the last
question block. -/
theorem c5_counterexample :
    exportData ⟨"s1", "T", none, "published"⟩
        [⟨"q1", "s1", "rating", "Q", none, false, 0⟩] [] 1 ≠
      exportCsvClaimedSpec ⟨"s1", "T", none, "published"⟩
        [⟨"q1", "s1", "rating", "Q", none, false, 0⟩] [] 1 ∧
    exportData ⟨"s1", "T", none, "published"⟩
        [⟨"q1", "s1", "rating", "Q", none, false, 0⟩] [] 1 =
      "Survey,T\nTotal Responses,1\n\nQ\nAverage Rating,0\n" ∧
    exportCsvClaimedSpec ⟨"s1", "T", none, "published"⟩
        [⟨"q1", "s1", "rating", "Q", none, false, 0⟩] [] 1 =
      "Survey,T\nTotal Responses,1\nQ\nAverage Rating,0" :=
  ⟨by decide, by decide, by decide⟩

/-- C5 (amended): the exported CSV is the newline join of the two summary
rows, a blank row, then for each question in order its text row, its
analytics rows (choice: one "label,count" row per counted value; rating:
one "Average Rating,<value>" row; text: each answer on its own row quoted
with internal quote characters doubled), and a blank row - a blank row
follows the summary lines and every question block (including the last)
rather than appearing only between questions; the download filename is
survey-results-<surveyId>.csv; no escaping occurs beyond the quote
doubling. -/
theorem c5_export_amended (survey : Survey) (questions : List Question)
    (answers : List Answer) (responseCount : Nat) (surveyId : String) :
    exportData survey questions answers responseCount =
      String.intercalate "\n"
        (["Survey," ++ survey.title,
          "Total Responses," ++ Nat.repr responseCount, ""] ++
          questions.flatMap (fun q =>
            [q.text] ++
            (match getQuestionAnalytics q answers with
             | .choice entries =>
                 entries.map (fun p => p.1 ++ "," ++ Nat.repr p.2)
             | .rating average _ => ["Average Rating," ++ average]
             | .text values =>
                 values.map (fun s =>
                   "\"" ++ String.mk (escapeQuotes s.data) ++ "\"")) ++ [""])) ∧
      exportFilename surveyId = "survey-results-" ++ surveyId ++ ".csv" := by
  refine ⟨?_, rfl⟩
  unfold exportData exportRows
  congr 1

end SurveyApp
